import Mathlib

/-!
Verification of the Windows registration shim
src/windows/flutter_local_llm_plugin_c_api.cpp.

The file contains a single C-linkage function,
FlutterLocalLlmPluginCApiRegisterWithRegistrar, whose whole body is

  flutter_local_llm::FlutterLocalLlmPlugin::RegisterWithRegistrar(
      flutter::PluginRegistrarManager::GetInstance()
          ->GetRegistrar<flutter::PluginRegistrarWindows>(registrar));

We embed it shallowly: the opaque handle becomes a natural number (0 standing
for the null pointer), the global state reachable across the call becomes an
explicit World record holding the state of the PluginRegistrarManager
singleton and the state internal to the excluded plugin implementation, and
the observable actions of one invocation are recorded in an event trace.
The two callees live outside this repository (the flutter framework and the
excluded plugin class), so they are modelled from the words of the spec;
the shim itself is translated directly from the source.
-/

/-- Opaque registrar handle FlutterDesktopPluginRegistrarRef, modelled as the
pointer value; 0 stands for the null handle. -/
abbrev FlutterDesktopPluginRegistrarRef := Nat

/-- A host-supplied registrar handle is valid when it is not null. -/
def ValidHandle (h : FlutterDesktopPluginRegistrarRef) : Prop := h ≠ 0

instance (h : FlutterDesktopPluginRegistrarRef) : Decidable (ValidHandle h) :=
  inferInstanceAs (Decidable (h ≠ 0))

/-- The strongly typed registrar wrapper flutter::PluginRegistrarWindows,
identified by the opaque handle it wraps. -/
structure PluginRegistrarWindows where
  handle : FlutterDesktopPluginRegistrarRef
  deriving DecidableEq

/-- Modelled from the spec: the state of the flutter::PluginRegistrarManager
singleton, which is not part of this repository. It caches the strongly typed
wrappers it has created, recorded here as the list of handles for which a
wrapper already exists. -/
structure PluginRegistrarManager where
  cached : List FlutterDesktopPluginRegistrarRef
  deriving DecidableEq

/-- Modelled from the spec: obtain (or create) the strongly typed registrar
wrapper for the given handle. Returns the wrapper together with the updated
singleton state: on a cache miss the freshly created wrapper is recorded in
the singleton. -/
def PluginRegistrarManager.GetRegistrar (m : PluginRegistrarManager)
    (h : FlutterDesktopPluginRegistrarRef) :
    PluginRegistrarWindows × PluginRegistrarManager :=
  if h ∈ m.cached then (⟨h⟩, m) else (⟨h⟩, ⟨h :: m.cached⟩)

/-- Modelled from the spec: the state internal to the excluded plugin
implementation, recorded as the list of registrars the plugin has attached
itself to. -/
abbrev PluginState := List PluginRegistrarWindows

/-- Modelled from the spec: the static registration routine
flutter_local_llm::FlutterLocalLlmPlugin::RegisterWithRegistrar of the
excluded plugin class. Its effect is internal to the plugin: the plugin
attaches itself to the given registrar. -/
def FlutterLocalLlmPlugin.RegisterWithRegistrar
    (registrar : PluginRegistrarWindows) (s : PluginState) : PluginState :=
  registrar :: s

/-- Global state observable before and after a call of the shim: the state of
the PluginRegistrarManager singleton together with the state internal to the
excluded plugin. -/
structure World where
  manager : PluginRegistrarManager
  pluginState : PluginState
  deriving DecidableEq

/-- Observable actions the shim could take during one invocation. The error
constructor stands for signalling, reporting or recovering from a failure
towards the caller; the code never emits it. -/
inductive Event where
  | getRegistrar (h : FlutterDesktopPluginRegistrarRef)
  | registerWithRegistrar (w : PluginRegistrarWindows)
  | error
  deriving DecidableEq

/-- True exactly on registration-call events. -/
def Event.isRegister : Event → Bool
  | .registerWithRegistrar _ => true
  | _ => false

/-- True exactly on registrar-lookup events. -/
def Event.isLookup : Event → Bool
  | .getRegistrar _ => true
  | _ => false

/-- Embedding of FlutterLocalLlmPluginCApiRegisterWithRegistrar from
src/windows/flutter_local_llm_plugin_c_api.cpp. The body first obtains the
typed registrar wrapper for the handle from the PluginRegistrarManager
singleton and then calls the registration routine of the plugin class with
that wrapper; there is no other statement. The result records the Unit value
returned to the caller (the C function returns void), the post state of the
world, and the trace of actions in execution order. -/
def FlutterLocalLlmPluginCApiRegisterWithRegistrar
    (registrar : FlutterDesktopPluginRegistrarRef) (w : World) :
    Unit × World × List Event :=
  let lookedUp := w.manager.GetRegistrar registrar
  ((),
   { manager := lookedUp.2,
     pluginState :=
       FlutterLocalLlmPlugin.RegisterWithRegistrar lookedUp.1 w.pluginState },
   [Event.getRegistrar registrar, Event.registerWithRegistrar lookedUp.1])

/-- The trace of actions of one invocation of the shim. -/
def callTrace (h : FlutterDesktopPluginRegistrarRef) (w : World) :
    List Event :=
  (FlutterLocalLlmPluginCApiRegisterWithRegistrar h w).2.2

/-- The world state after one invocation of the shim. -/
def postWorld (h : FlutterDesktopPluginRegistrarRef) (w : World) : World :=
  (FlutterLocalLlmPluginCApiRegisterWithRegistrar h w).2.1

/-- Claim C1: for every registrar handle, the shim performs exactly one
composite action and nothing else: it obtains the typed PluginRegistrarWindows
wrapper for that handle from the PluginRegistrarManager singleton and calls
FlutterLocalLlmPlugin.RegisterWithRegistrar with that wrapper. The whole
result of the call, post state and trace alike, is determined by exactly
these two steps. -/
theorem c1_exactly_lookup_then_forward
    (h : FlutterDesktopPluginRegistrarRef) (w : World) :
    FlutterLocalLlmPluginCApiRegisterWithRegistrar h w =
      ((),
       { manager := (w.manager.GetRegistrar h).2,
         pluginState := FlutterLocalLlmPlugin.RegisterWithRegistrar
           (w.manager.GetRegistrar h).1 w.pluginState },
       [Event.getRegistrar h,
        Event.registerWithRegistrar (w.manager.GetRegistrar h).1]) := rfl

/-- Counterexample to claim C2 as stated: on a cache miss the state of the
PluginRegistrarManager singleton, a global not internal to the excluded
plugin, is changed across the call, because the registrar lookup creates and
stores a fresh wrapper. -/
theorem c2_counterexample_manager_mutated :
    (FlutterLocalLlmPluginCApiRegisterWithRegistrar 5
        { manager := ⟨[]⟩, pluginState := [] }).2.1.manager ≠ ⟨[]⟩ := by
  decide

/-- Claim C2 as amended: the shim itself allocates, stores and mutates
nothing: the post state is exactly the manager state produced by the registrar
lookup together with the plugin state produced by the registration routine,
so every state change across the call is internal to those two callees; in
particular, when the wrapper for the handle is already cached the manager
singleton is unchanged. -/
theorem c2_shim_adds_no_state_change
    (h : FlutterDesktopPluginRegistrarRef) (w : World) :
    postWorld h w =
      { manager := (w.manager.GetRegistrar h).2,
        pluginState := FlutterLocalLlmPlugin.RegisterWithRegistrar
          (w.manager.GetRegistrar h).1 w.pluginState } ∧
    (h ∈ w.manager.cached → (postWorld h w).manager = w.manager) := by
  refine ⟨rfl, fun hc => ?_⟩
  simp [postWorld, FlutterLocalLlmPluginCApiRegisterWithRegistrar,
    PluginRegistrarManager.GetRegistrar, hc]

/-- Witness for the amended claim C2 at a concrete input: with the wrapper for
handle 5 already cached, the manager singleton is unchanged by the call. -/
theorem c2_shim_adds_no_state_change_witness :
    (postWorld 5 { manager := ⟨[5]⟩, pluginState := [] }).manager = ⟨[5]⟩ :=
  (c2_shim_adds_no_state_change 5
    { manager := ⟨[5]⟩, pluginState := [] }).2 (by decide)

/-- Claim C3: under the precondition that the handle is valid, the shim never
signals, reports or recovers from an error: no error event ever appears in
the trace of the call, so no failure is propagated to the caller. -/
theorem c3_no_error_path
    (h : FlutterDesktopPluginRegistrarRef) (w : World)
    (hv : ValidHandle h) :
    Event.error ∉ callTrace h w := by
  simp [callTrace, FlutterLocalLlmPluginCApiRegisterWithRegistrar]

/-- Witness for claim C3 at a concrete valid handle. -/
theorem c3_no_error_path_witness :
    ValidHandle 5 ∧
      Event.error ∉ callTrace 5 { manager := ⟨[]⟩, pluginState := [] } :=
  ⟨by decide,
   c3_no_error_path 5 { manager := ⟨[]⟩, pluginState := [] } (by decide)⟩

/-- Claim C4: the shim validates nothing: for every handle value the very
first action of the call is the registrar lookup receiving exactly that
handle, and the null handle 0 is forwarded unexamined just the same. -/
theorem c4_handle_forwarded_unexamined
    (h : FlutterDesktopPluginRegistrarRef) (w : World) :
    (callTrace h w).head? = some (Event.getRegistrar h) ∧
    (callTrace 0 w).head? = some (Event.getRegistrar 0) :=
  ⟨rfl, rfl⟩

/-- Claim C5: the function takes the one registrar handle parameter and
returns nothing: the value handed back to the caller is the Unit value, and
it carries no information computed from the input, being identical across all
invocations. -/
theorem c5_void_return_no_result
    (h h' : FlutterDesktopPluginRegistrarRef) (w w' : World) :
    (FlutterLocalLlmPluginCApiRegisterWithRegistrar h w).1 = () ∧
    (FlutterLocalLlmPluginCApiRegisterWithRegistrar h w).1 =
      (FlutterLocalLlmPluginCApiRegisterWithRegistrar h' w').1 :=
  ⟨rfl, rfl⟩

/-- Claim C6: each invocation executes exactly the ordered sequence of
receiving the handle, obtaining the typed wrapper for it, and forwarding the
wrapper to the registration routine: the trace is exactly the lookup event
followed by the registration event, the registration call occurs exactly
once, and the lookup occurs exactly once, strictly before any registration
event. -/
theorem c6_lookup_before_single_register
    (h : FlutterDesktopPluginRegistrarRef) (w : World) :
    callTrace h w =
      [Event.getRegistrar h,
       Event.registerWithRegistrar (w.manager.GetRegistrar h).1] ∧
    (callTrace h w).countP Event.isRegister = 1 ∧
    ((callTrace h w).takeWhile (fun e => !e.isRegister)).countP
      Event.isLookup = 1 := by
  refine ⟨rfl, ?_, ?_⟩ <;>
    simp [callTrace, FlutterLocalLlmPluginCApiRegisterWithRegistrar,
      Event.isRegister, Event.isLookup, List.countP_cons]

/-- Claim C7 concerns threads, blocking and cancellation; the embedding is a
sequential function, so the claim is recorded in the results file rather than
as a theorem. Claim C8: the shim is deterministic: two invocations with equal
handles and equal PluginRegistrarManager singleton states produce identical
traces, hence resolve the same wrapper and make the identical registration
call with identical arguments, and leave identical manager states. -/
theorem c8_deterministic
    (h : FlutterDesktopPluginRegistrarRef) (w w' : World)
    (hm : w.manager = w'.manager) :
    callTrace h w = callTrace h w' ∧
    (postWorld h w).manager = (postWorld h w').manager := by
  constructor <;>
    simp [callTrace, postWorld, FlutterLocalLlmPluginCApiRegisterWithRegistrar,
      hm]

/-- Witness for claim C8 at concrete inputs: two worlds agreeing on the
manager singleton but differing in the plugin state yield identical traces. -/
theorem c8_deterministic_witness :
    callTrace 5 { manager := ⟨[]⟩, pluginState := [] } =
      callTrace 5 { manager := ⟨[]⟩, pluginState := [⟨7⟩] } :=
  (c8_deterministic 5 { manager := ⟨[]⟩, pluginState := [] }
    { manager := ⟨[]⟩, pluginState := [⟨7⟩] } (by decide)).1

/-- Claim C9: the shim terminates on every input: its body is straight-line,
and for every handle and every world the call yields a result whose trace
consists of exactly the registrar lookup followed by the registration call
and nothing further. -/
theorem c9_total_terminating
    (h : FlutterDesktopPluginRegistrarRef) (w : World) :
    ∃ w' : World,
      FlutterLocalLlmPluginCApiRegisterWithRegistrar h w =
        ((), w',
         [Event.getRegistrar h,
          Event.registerWithRegistrar (w.manager.GetRegistrar h).1]) :=
  ⟨_, rfl⟩
